import Mathlib

/-!
Verification of the Grid-Strategy trading repository.

Shallow embedding of the core components in Lean 4:
prices, quantities and P&L are modelled as rationals (`ℚ`),
Python sets as `Finset`, Python dict-based records as structures,
and Python exceptions (`ValueError`, `AttributeError`, `SystemExit`)
as explicit error values returned next to the mutated state
(a Python `try`/`except` keeps the mutations made before the raise,
so fallible operations return the state-so-far together with
an optional error, never an all-or-nothing `Except`).

Sources embedded (paths relative to the repository root):
  - src/strategy/grid_generator.py      (GridGenerator.generate_grid_levels)
  - src/strategy/volatility_manager.py  (VolatilityManager.classify_volatility_regime)
  - src/strategy/order_executor.py      (OrderExecutor: buy/sell execution,
                                         get_trading_opportunities)
  - src/strategy/risk_manager.py        (RiskManager)
  - src/analytics/cycle_tracker.py      (CycleTracker)
  - src/position/position_manager.py    (PositionManager)
-/

/-- Python exception kinds that the embedded code can raise. -/
inductive PyError where
  | valueError : String → PyError
  | attributeError : String → PyError
  | systemExit : String → PyError
deriving DecidableEq, Repr

/-- Order side of a grid level (the `side` field of a level dict). -/
inductive Side where
  | BUY : Side
  | SELL : Side
deriving DecidableEq, Repr

/-- One grid level, as built by `GridGenerator.generate_grid_levels`:
`{'price': ..., 'side': ..., 'level': ..., 'status': 'pending'}`.
The `status` field is the constant `'pending'` at generation time and is
never read by the embedded operations, so it is omitted. -/
structure GridLevel where
  price : ℚ
  side : Side
  level : ℤ
deriving DecidableEq, Repr

/-- The comparison used by `grid_levels.sort(key=lambda x: x['price'])`:
ascending order on the `price` field. -/
def priceLE (a b : GridLevel) : Prop := a.price ≤ b.price

instance : DecidableRel priceLE :=
  fun a b => inferInstanceAs (Decidable (a.price ≤ b.price))

instance : IsTotal GridLevel priceLE := ⟨fun a b => le_total a.price b.price⟩

instance : IsTrans GridLevel priceLE := ⟨fun _ _ _ h h2 => le_trans h h2⟩

/-- The BUY half of the ladder: `for i in range(1, levels // 2 + 1)`
appends a level at `current_price * (1 - spacing_pct * i)` with index `-i`
(grid_generator.py lines 29-36). `k` is `levels // 2`. -/
def gridBuys (center spacing : ℚ) (k : ℕ) : List GridLevel :=
  (List.range k).map (fun (j : ℕ) =>
    { price := center * (1 - spacing * ((j : ℚ) + 1)),
      side := Side.BUY,
      level := -((j : ℤ) + 1) })

/-- The SELL half of the ladder: `for i in range(1, levels // 2 + 1)`
appends a level at `current_price * (1 + spacing_pct * i)` with index `+i`
(grid_generator.py lines 39-46). -/
def gridSells (center spacing : ℚ) (k : ℕ) : List GridLevel :=
  (List.range k).map (fun (j : ℕ) =>
    { price := center * (1 + spacing * ((j : ℚ) + 1)),
      side := Side.SELL,
      level := (j : ℤ) + 1 })

/-- `GridGenerator.generate_grid_levels` (grid_generator.py lines 15-58):
builds the BUY levels, then the SELL levels, then sorts the concatenation
ascending by price.  `GridStrategyController.generate_grid`
(grid_strategy_controller.py lines 192-240) builds the same ladder
(adding only a `quantity` field).  Neither function validates
`center_price` or `spacing_pct`: there is no error path. -/
def generate_grid_levels (center spacing : ℚ) (levels : ℕ) : List GridLevel :=
  List.insertionSort priceLE
    (gridBuys center spacing (levels / 2) ++ gridSells center spacing (levels / 2))

/-- `VolatilityManager.classify_volatility_regime`
(volatility_manager.py lines 91-104), with the threshold values taken from
`self.volatility_thresholds` set in `__init__` (lines 27-33):
`very_low: 0.015, low: 0.025, normal: 0.040, high: 0.060, very_high: 0.080`.
The cascade tests `ratio >= thresholds[name]` from `very_high` down. -/
def classify_volatility_regime (volatility_ratio : ℚ) : String :=
  if volatility_ratio ≥ 80 / 1000 then "very_high"
  else if volatility_ratio ≥ 60 / 1000 then "high"
  else if volatility_ratio ≥ 40 / 1000 then "normal"
  else if volatility_ratio ≥ 25 / 1000 then "low"
  else "very_low"

/-- An open position held by `PositionManager`
(position_manager.py: `self.current_position` dict with
`buy_price` and `quantity`; the `timestamp` field is plumbing). -/
structure Position where
  buy_price : ℚ
  quantity : ℚ
deriving DecidableEq, Repr

/-- `PositionManager` state (position_manager.py lines 9-13).
`positions` (the append-only open-history list) is logging-only plumbing
and is omitted; `closed_positions` receives a copy of the current
position when a sell brings its quantity to exactly 0 (line 97-100). -/
structure PMState where
  current_position : Option Position
  closed_positions : List Position
deriving DecidableEq, Repr

/-- Fresh `PositionManager` (constructor, lines 9-13). -/
def pmInit : PMState := { current_position := none, closed_positions := [] }

/-- The net base-asset quantity currently held: the quantity of
`current_position`, or 0 when there is none. -/
def PMState.positionQty (st : PMState) : ℚ :=
  match st.current_position with
  | none => 0
  | some p => p.quantity

/-- `PositionManager.buy(quantity, price)` (position_manager.py lines 48-74):
if a position exists, merge into it with total quantity and
quantity-weighted average buy price; otherwise open a new position. -/
def pm_buy (st : PMState) (quantity price : ℚ) : PMState :=
  match st.current_position with
  | some p =>
      let total_qty := p.quantity + quantity
      let avg_price := (p.buy_price * p.quantity + price * quantity) / total_qty
      { st with current_position := some { buy_price := avg_price, quantity := total_qty } }
  | none =>
      { st with current_position := some { buy_price := price, quantity := quantity } }

/-- `PositionManager.sell(quantity, price)` (position_manager.py lines 76-100):
raises `ValueError("Not enough position to sell.")` when there is no
current position or its quantity is below the requested quantity,
leaving the state unchanged; otherwise computes
`pnl = (price - buy_price) * quantity` (logged as the trade's P&L),
reduces the position and closes it when the quantity reaches 0.
Returns the new state and `Except.ok pnl`, or the old state and the error. -/
def pm_sell (st : PMState) (quantity price : ℚ) : PMState × Except PyError ℚ :=
  match st.current_position with
  | none => (st, Except.error (PyError.valueError "Not enough position to sell."))
  | some p =>
      if p.quantity < quantity then
        (st, Except.error (PyError.valueError "Not enough position to sell."))
      else
        let pnl := (price - p.buy_price) * quantity
        let q2 := p.quantity - quantity
        if q2 = 0 then
          ({ current_position := none,
             closed_positions := st.closed_positions ++ [{ buy_price := p.buy_price, quantity := q2 }] },
           Except.ok pnl)
        else
          ({ st with current_position := some { p with quantity := q2 } }, Except.ok pnl)

/-- One buy or sell request against the `PositionManager`
(quantity, price), used to state the spot-position invariant. -/
inductive PMOp where
  | buy : ℚ → ℚ → PMOp
  | sell : ℚ → ℚ → PMOp
deriving DecidableEq, Repr

/-- The quantity field of a request. -/
def PMOp.qty : PMOp → ℚ
  | PMOp.buy q _ => q
  | PMOp.sell q _ => q

/-- Apply one request: a rejected sell (ValueError) leaves the state
unchanged, exactly as the raise on line 82 of position_manager.py
happens before any mutation. -/
def pm_apply (st : PMState) (op : PMOp) : PMState :=
  match op with
  | PMOp.buy q p => pm_buy st q p
  | PMOp.sell q p => (pm_sell st q p).1

/-- Run a sequence of requests from a given state. -/
def pm_run (st : PMState) (ops : List PMOp) : PMState :=
  ops.foldl pm_apply st

/-- `OrderExecutor` grid-tracking state (order_executor.py lines 22-24):
`bought_levels` is a set of level numbers, `sold_levels` a set of
`(level, price)` pairs; plus the `PositionManager` it drives. -/
structure ExecState where
  bought_levels : Finset ℤ
  sold_levels : Finset (ℤ × ℚ)
  pm : PMState
deriving DecidableEq

/-- Fresh `OrderExecutor` with a fresh `PositionManager`. -/
def execInit : ExecState := { bought_levels := ∅, sold_levels := ∅, pm := pmInit }

/-- The method names defined by `class CycleTracker` (cycle_tracker.py).
`OrderExecutor.execute_sell_orders` (order_executor.py lines 258-261) and
`GridStrategyController._execute_sell_orders`
(grid_strategy_controller.py lines 810-813) call
`cycle_tracker.check_cycle_completion(side, price, qty)`, a name that is
NOT in this list, so that call raises `AttributeError` at runtime. -/
def cycleTrackerMethods : List String :=
  ["__init__", "start_new_cycle", "record_order_fill",
   "_check_cycle_completion", "_complete_cycle", "_update_daily_stats",
   "get_performance_summary", "_calculate_max_consecutive_losses",
   "_get_largest_single_loss", "check_risk_alerts", "export_performance_data"]

/-- Attribute lookup for the call
`cycle_tracker.check_cycle_completion(...)`: succeeds only if the class
defines that method, otherwise it is a Python `AttributeError`. -/
def callCheckCycleCompletion : Except PyError Unit :=
  if "check_cycle_completion" ∈ cycleTrackerMethods then Except.ok ()
  else Except.error (PyError.attributeError "check_cycle_completion")

/-- One iteration of `OrderExecutor.execute_buy_orders`
(order_executor.py lines 49-145) over one grid level, in testnet mode
(the simulated order is always `FILLED`): if the level is a BUY level,
`current_price <= level.price` and the level number is not in
`bought_levels`, the position manager records the buy at the level price
for `base_quantity` and the level number is added to `bought_levels`.
Returns the new state and whether the level was appended to
`executed_orders`.  Logging, fee bookkeeping and risk-capital plumbing
are omitted (they do not touch this state). -/
def execute_buy_step (st : ExecState) (lvl : GridLevel) (current_price base_quantity : ℚ) :
    ExecState × Bool :=
  if lvl.side = Side.BUY ∧ current_price ≤ lvl.price ∧ lvl.level ∉ st.bought_levels then
    ({ st with pm := pm_buy st.pm base_quantity lvl.price,
               bought_levels := insert lvl.level st.bought_levels }, true)
  else (st, false)

/-- `OrderExecutor.execute_buy_orders` over a whole ladder: the Python
`for level in grid_levels` loop, threading the state. -/
def execute_buy_orders (st : ExecState) (grid : List GridLevel)
    (current_price base_quantity : ℚ) : ExecState :=
  grid.foldl (fun s lvl => (execute_buy_step s lvl current_price base_quantity).1) st

/-- One iteration of `OrderExecutor.execute_sell_orders`
(order_executor.py lines 155-277) over one grid level, in testnet mode.
Trigger condition (lines 156-158): SELL side, `current_price >= price`,
`(level, price) not in sold_levels`.  Insufficient position
(lines 161-164) skips the level.  On the simulated fill:
`pm.sell(base_quantity, level.price)` runs, then — only if a position
remains (lines 208-217) — `pnl = (level.price - buy_price) * qty` is
recorded with the risk manager; `(level, price)` is added to
`sold_levels` (line 220); `self.fee_calculator` is never set by
`__init__`, so the `hasattr` guard on line 225 is false and no fee
adjustment happens; finally (lines 258-261) the call
`cycle_tracker.check_cycle_completion('sell', price, qty)` is attempted
when a tracker was passed.  That attribute is missing, so the call
raises `AttributeError`, which the `except` on line 271 catches: the
level is then NOT appended to `executed_orders`.
Returns (state, appended-to-executed_orders, pnl recorded with the risk
manager if any, error caught if any).  Note: nothing is ever removed
from `bought_levels` in this function. -/
def execute_sell_step (st : ExecState) (lvl : GridLevel)
    (current_price base_quantity : ℚ) (withCycleTracker : Bool) :
    ExecState × Bool × Option ℚ × Option PyError :=
  if lvl.side = Side.SELL ∧ current_price ≥ lvl.price ∧ (lvl.level, lvl.price) ∉ st.sold_levels then
    if st.pm.positionQty < base_quantity then (st, false, none, none)
    else
      match pm_sell st.pm base_quantity lvl.price with
      | (_, Except.error e) => (st, false, none, some e)
      | (pm2, Except.ok _) =>
          let pnlRecorded :=
            match pm2.current_position with
            | some p => some ((lvl.price - p.buy_price) * base_quantity)
            | none => none
          let st2 : ExecState :=
            { st with pm := pm2, sold_levels := insert (lvl.level, lvl.price) st.sold_levels }
          if withCycleTracker then
            match callCheckCycleCompletion with
            | Except.ok _ => (st2, true, pnlRecorded, none)
            | Except.error e => (st2, false, pnlRecorded, some e)
          else (st2, true, pnlRecorded, none)
  else (st, false, none, none)

/-- `OrderExecutor.execute_sell_orders` over a whole ladder: threads the
state through the `for` loop and collects the levels appended to
`executed_orders` and the errors caught by the per-level `except`. -/
def execute_sell_orders (st : ExecState) (grid : List GridLevel)
    (current_price base_quantity : ℚ) (withCycleTracker : Bool) :
    ExecState × List GridLevel × List PyError :=
  grid.foldl
    (fun acc lvl =>
      let r := execute_sell_step acc.1 lvl current_price base_quantity withCycleTracker
      (r.1,
       acc.2.1 ++ (if r.2.1 then [lvl] else []),
       acc.2.2 ++ (match r.2.2.2 with | some e => [e] | none => [])))
    (st, [], [])

/-- `OrderExecutor.get_trading_opportunities(grid_levels, current_price)`
(order_executor.py lines 281-299): walks the ladder and collects the BUY
levels with `current_price <= price` whose level number is not in
`bought_levels`, and the SELL levels with `current_price >= price` whose
`(level, price)` pair is not in `sold_levels`.  The method only reads
`self.bought_levels` / `self.sold_levels`; it is embedded as returning
the (unchanged) state together with the two candidate lists. -/
def get_trading_opportunities (st : ExecState) (grid : List GridLevel)
    (current_price : ℚ) : ExecState × List GridLevel × List GridLevel :=
  (st,
   grid.filter (fun lvl =>
     lvl.side = Side.BUY ∧ current_price ≤ lvl.price ∧ lvl.level ∉ st.bought_levels),
   grid.filter (fun lvl =>
     lvl.side = Side.SELL ∧ current_price ≥ lvl.price ∧ (lvl.level, lvl.price) ∉ st.sold_levels))

/-- The configuration values `RiskManager.__init__` loads
(risk_manager.py lines 24-29) plus the total capital used by the limit
checks (`getattr(self, 'total_capital', risk_cfg.get('total_capital',
10000))`, lines 143/159/239). -/
structure RiskConfig where
  total_capital : ℚ
  max_drawdown_pct : ℚ
  daily_loss_limit_pct : ℚ
  max_consecutive_losses : ℕ
  emergency_stop_enabled : Bool
deriving DecidableEq, Repr

/-- `RiskManager` mutable risk-tracking state (risk_manager.py lines
16-22), for a single trading day: `daily_pnl` is the entry of the
`daily_pnl` dict for the current date (`_reset_daily_tracking` never
clears the dict, it only resets `last_reset_date` and
`max_drawdown_today`, so the fields below are exactly the ones the
embedded operations read on a fixed date). -/
structure RiskState where
  daily_pnl : ℚ
  consecutive_losses : ℕ
  current_drawdown : ℚ
  max_drawdown_today : ℚ
  emergency_stop_triggered : Bool
deriving DecidableEq, Repr

/-- Fresh `RiskManager` tracking state (constructor, lines 17-21). -/
def riskInit : RiskState :=
  { daily_pnl := 0, consecutive_losses := 0, current_drawdown := 0,
    max_drawdown_today := 0, emergency_stop_triggered := false }

/-- The hard daily-loss limit:
`total_capital * (daily_loss_limit_pct / 100)` (risk_manager.py line 144). -/
def daily_loss_limit (cfg : RiskConfig) : ℚ :=
  cfg.total_capital * (cfg.daily_loss_limit_pct / 100)

/-- The hard drawdown limit:
`total_capital * (max_drawdown_pct / 100)` (risk_manager.py line 160). -/
def max_drawdown_limit (cfg : RiskConfig) : ℚ :=
  cfg.total_capital * (cfg.max_drawdown_pct / 100)

/-- `RiskManager._trigger_emergency_stop` (risk_manager.py lines
189-217): returns immediately when the flag is already set; otherwise
sets `emergency_stop_triggered = True` and raises
`SystemExit` (line 217).  The boolean of the result records whether
`SystemExit` was raised (it propagates out of `record_trade_result`). -/
def trigger_emergency_stop (st : RiskState) : RiskState × Bool :=
  if st.emergency_stop_triggered then (st, false)
  else ({ st with emergency_stop_triggered := true }, true)

/-- `RiskManager._check_risk_limits` (risk_manager.py lines 129-187):
nothing is checked when `emergency_stop_enabled` is false; the daily
loss is checked first (only when today's P&L is negative), then — unless
a first trigger already raised `SystemExit` — the drawdown.  The
consecutive-losses branch (lines 172-181) only emits an alert and
changes no state.  The boolean of the result records a propagating
`SystemExit`. -/
def check_risk_limits (cfg : RiskConfig) (st : RiskState) : RiskState × Bool :=
  if cfg.emergency_stop_enabled = false then (st, false)
  else
    let afterDaily : RiskState × Bool :=
      if st.daily_pnl < 0 ∧ |st.daily_pnl| ≥ daily_loss_limit cfg then
        trigger_emergency_stop st
      else (st, false)
    if afterDaily.2 then afterDaily
    else
      let st1 := afterDaily.1
      if st1.current_drawdown > 0 ∧ st1.current_drawdown ≥ max_drawdown_limit cfg then
        trigger_emergency_stop st1
      else (st1, false)

/-- The statistics update at the head of
`RiskManager.record_trade_result` (risk_manager.py lines 92-104):
`daily_pnl[today] += pnl`; a losing trade increments
`consecutive_losses` and adds `|pnl|` to the drawdown; a non-losing
trade resets `consecutive_losses` to 0 and reduces the drawdown by the
profit, floored at 0. -/
def apply_trade_stats (st : RiskState) (pnl : ℚ) : RiskState :=
  let st1 := { st with daily_pnl := st.daily_pnl + pnl }
  if pnl < 0 then
    { st1 with consecutive_losses := st1.consecutive_losses + 1,
               current_drawdown := st1.current_drawdown + |pnl|,
               max_drawdown_today := max st1.max_drawdown_today (st1.current_drawdown + |pnl|) }
  else
    { st1 with consecutive_losses := 0,
               current_drawdown := max 0 (st1.current_drawdown - pnl) }

/-- `RiskManager.record_trade_result(pnl)` (risk_manager.py lines
82-116): update the statistics, then run `_check_risk_limits`.  The
boolean of the result records a propagating `SystemExit` (the state
mutations made before the raise persist). -/
def record_trade_result (cfg : RiskConfig) (st : RiskState) (pnl : ℚ) : RiskState × Bool :=
  check_risk_limits cfg (apply_trade_stats st pnl)

/-- Fold `record_trade_result` over a list of trade P&Ls (each call's
state survives even when that call raised `SystemExit`, as when the
caller catches it and continues — the sticky flag is the point). -/
def record_trades (cfg : RiskConfig) (st : RiskState) (pnls : List ℚ) : RiskState :=
  pnls.foldl (fun s p => (record_trade_result cfg s p).1) st

/-- `RiskManager.check_trade_allowed()` (risk_manager.py lines 219-245):
false when the emergency stop is active; false when
`consecutive_losses >= max_consecutive_losses`; false when today's P&L
is negative and `|today_pnl| >= daily_loss_limit * 0.8` (the 80%
early-warning threshold); otherwise true. -/
def check_trade_allowed (cfg : RiskConfig) (st : RiskState) : Bool × String :=
  if st.emergency_stop_triggered then (false, "Emergency stop is active")
  else if cfg.max_consecutive_losses ≤ st.consecutive_losses then
    (false, "Too many consecutive losses")
  else if st.daily_pnl < 0 ∧ |st.daily_pnl| ≥ daily_loss_limit cfg * (8 / 10) then
    (false, "Approaching daily loss limit")
  else (true, "Trading allowed")

/-- One recorded order fill (cycle_tracker.py lines 74-83):
`side`, `price`, `quantity`, `fee`; `value = price * quantity`. -/
structure Fill where
  side : String
  price : ℚ
  quantity : ℚ
  fee : ℚ
deriving DecidableEq, Repr

/-- `fill['value'] = price * quantity` (cycle_tracker.py line 82). -/
def Fill.value (f : Fill) : ℚ := f.price * f.quantity

/-- One trading cycle (cycle_tracker.py lines 40-55, the fields the
embedded operations read and write; `start_time`, `start_price`,
`grid_levels`, `orders_placed` and the `buy_orders`/`sell_orders` level
snapshots are timing/display plumbing). -/
structure TradeCycle where
  fills : List Fill
  orders_filled : ℕ
  fees_paid : ℚ
  gross_profit : ℚ
  net_profit : ℚ
  profit_pct : ℚ
  status : String
deriving DecidableEq, Repr

/-- A fresh cycle as built by `start_new_cycle`
(cycle_tracker.py lines 40-55). -/
def freshCycle : TradeCycle :=
  { fills := [], orders_filled := 0, fees_paid := 0, gross_profit := 0,
    net_profit := 0, profit_pct := 0, status := "active" }

/-- Today's entry of the `daily_stats` dict (cycle_tracker.py lines
192-201); starting from the all-zero entry that the dict is initialised
with on first access models a single trading day. -/
structure DailyStats where
  cycles_completed : ℕ
  gross_profit : ℚ
  net_profit : ℚ
  fees_paid : ℚ
  avg_profit_per_cycle : ℚ
  target_cycles_met : ℕ
  daily_target_met : Bool
deriving DecidableEq, Repr

/-- The zero entry `daily_stats[today]` is initialised with. -/
def dailyInit : DailyStats :=
  { cycles_completed := 0, gross_profit := 0, net_profit := 0, fees_paid := 0,
    avg_profit_per_cycle := 0, target_cycles_met := 0, daily_target_met := false }

/-- Configuration read by `CycleTracker`: the maker fee percentage
(`fees_cfg.get('maker_fee_pct', 0.1)`, cycle_tracker.py line 93), the
target profit per cycle as a fraction
(`perf_cfg.get('expected_profit_per_cycle_pct', 0.35) / 100`, line 30)
and the daily target profit fraction (line 31). -/
structure CycleConfig where
  maker_fee_pct : ℚ
  target_profit_per_cycle : ℚ
  daily_target_profit : ℚ
deriving DecidableEq, Repr

/-- `CycleTracker` state (cycle_tracker.py lines 16-27).  Two attributes
that the methods READ are never initialised by `__init__`:
`self.total_fees` (read by `record_order_fill`, line 95 — `__init__`
only sets `total_fees_paid`) and `self.total_capital` (read by
`_update_daily_stats`, line 215).  They are modelled as `Option ℚ`
with `none` meaning "attribute missing": reading `none` is a Python
`AttributeError`. -/
structure CycleTracker where
  current_cycle : Option TradeCycle
  cycles : List TradeCycle
  total_profit : ℚ
  total_loss : ℚ
  total_fees_paid : ℚ
  winning_cycles : ℕ
  losing_cycles : ℕ
  max_drawdown : ℚ
  current_drawdown : ℚ
  daily : DailyStats
  total_fees : Option ℚ
  total_capital : Option ℚ
deriving DecidableEq, Repr

/-- Fresh `CycleTracker` (constructor, cycle_tracker.py lines 13-32):
note `total_fees` and `total_capital` are NOT set. -/
def cycleTrackerInit : CycleTracker :=
  { current_cycle := none, cycles := [], total_profit := 0, total_loss := 0,
    total_fees_paid := 0, winning_cycles := 0, losing_cycles := 0,
    max_drawdown := 0, current_drawdown := 0, daily := dailyInit,
    total_fees := none, total_capital := none }

/-- `CycleTracker.start_new_cycle(initial_price, grid_levels)`
(cycle_tracker.py lines 34-64): installs a fresh active cycle. -/
def start_new_cycle (t : CycleTracker) : CycleTracker :=
  { t with current_cycle := some freshCycle }

/-- `CycleTracker._update_daily_stats(completed_cycle)`
(cycle_tracker.py lines 186-223): accumulates today's entry, then on
line 215 reads `self.total_capital` to decide `daily_target_met` —
an attribute `__init__` never sets, so the method raises
`AttributeError` there (after the accumulations already happened). -/
def update_daily_stats (cfg : CycleConfig) (t : CycleTracker) (cycle : TradeCycle) :
    CycleTracker × Option PyError :=
  let d := t.daily
  let d1 : DailyStats :=
    { d with cycles_completed := d.cycles_completed + 1,
             gross_profit := d.gross_profit + cycle.gross_profit,
             net_profit := d.net_profit + cycle.net_profit,
             fees_paid := d.fees_paid + cycle.fees_paid,
             avg_profit_per_cycle :=
               (d.net_profit + cycle.net_profit) / (d.cycles_completed + 1 : ℕ) }
  let d2 : DailyStats :=
    if cycle.profit_pct ≥ cfg.target_profit_per_cycle * 100 then
      { d1 with target_cycles_met := d1.target_cycles_met + 1 }
    else d1
  match t.total_capital with
  | none => ({ t with daily := d2 }, some (PyError.attributeError "total_capital"))
  | some cap =>
      let d3 := { d2 with daily_target_met := decide (d2.net_profit / cap ≥ cfg.daily_target_profit) }
      ({ t with daily := d3 }, none)

/-- `CycleTracker._complete_cycle()` (cycle_tracker.py lines 125-184):
computes `gross_profit = Σ sell value - Σ buy value`,
`net_profit = gross - fees_paid`, `profit_pct = net / Σ buy value * 100`
(only when `Σ buy value > 0`), updates win/loss totals and drawdown,
appends the completed cycle to `self.cycles` (line 168), and only THEN
calls `_update_daily_stats` (line 171); `self.current_cycle = None`
(line 184) runs only if that call returned.  A no-op when no cycle is
active. -/
def complete_cycle (cfg : CycleConfig) (t : CycleTracker) : CycleTracker × Option PyError :=
  match t.current_cycle with
  | none => (t, none)
  | some c =>
      let buy_fills := c.fills.filter (fun f => f.side == "BUY")
      let sell_fills := c.fills.filter (fun f => f.side == "SELL")
      let total_buy_value := (buy_fills.map Fill.value).sum
      let total_sell_value := (sell_fills.map Fill.value).sum
      let gross := total_sell_value - total_buy_value
      let net := gross - c.fees_paid
      let pct := if total_buy_value > 0 then net / total_buy_value * 100 else c.profit_pct
      let c2 : TradeCycle :=
        { c with status := "completed", gross_profit := gross,
                 net_profit := net, profit_pct := pct }
      let t1 : CycleTracker :=
        if net > 0 then
          { t with total_profit := t.total_profit + net,
                   winning_cycles := t.winning_cycles + 1,
                   current_drawdown := 0 }
        else
          { t with total_loss := t.total_loss + |net|,
                   losing_cycles := t.losing_cycles + 1,
                   current_drawdown := t.current_drawdown + |net|,
                   max_drawdown := max t.max_drawdown (t.current_drawdown + |net|) }
      let t2 : CycleTracker :=
        { t1 with total_fees_paid := t1.total_fees_paid + c2.fees_paid,
                  cycles := t1.cycles ++ [c2],
                  current_cycle := some c2 }
      match update_daily_stats cfg t2 c2 with
      | (t3, some e) => (t3, some e)
      | (t3, none) => ({ t3 with current_cycle := none }, none)

/-- `CycleTracker._check_cycle_completion()` (cycle_tracker.py lines
110-123): completes the active cycle as soon as it holds at least one
BUY fill and at least one SELL fill. -/
def check_cycle_completion_private (cfg : CycleConfig) (t : CycleTracker) :
    CycleTracker × Option PyError :=
  match t.current_cycle with
  | none => (t, none)
  | some c =>
      if (c.fills.any (fun f => f.side == "BUY")) ∧ (c.fills.any (fun f => f.side == "SELL")) then
        complete_cycle cfg t
      else (t, none)

/-- `CycleTracker.record_order_fill(order_id, side, price, quantity,
fee, fee_asset='USDT')` (cycle_tracker.py lines 66-108): a no-op when no
cycle is active; otherwise appends the fill to the active cycle and adds
the fee to `fees_paid` (lines 85-87); then, when `fee_asset == 'USDT'`,
line 95 executes `self.total_fees += fee_amount`, which reads the
attribute `self.total_fees` that `__init__` never set — an
`AttributeError` that aborts the call BEFORE `_check_cycle_completion`
is reached.  With a non-USDT fee asset the completion check runs. -/
def record_order_fill (cfg : CycleConfig) (t : CycleTracker)
    (side : String) (price quantity fee : ℚ) (fee_asset : String) :
    CycleTracker × Option PyError :=
  match t.current_cycle with
  | none => (t, none)
  | some c =>
      let fill : Fill := { side := side, price := price, quantity := quantity, fee := fee }
      let c1 : TradeCycle :=
        { c with fills := c.fills ++ [fill],
                 orders_filled := c.orders_filled + 1,
                 fees_paid := c.fees_paid + fee }
      let t1 := { t with current_cycle := some c1 }
      if fee_asset = "USDT" then
        match t1.total_fees with
        | none => (t1, some (PyError.attributeError "total_fees"))
        | some tf =>
            let fee_amount := price * quantity * (cfg.maker_fee_pct / 100)
            check_cycle_completion_private cfg { t1 with total_fees := some (tf + fee_amount) }
      else
        check_cycle_completion_private cfg t1

/-! ## Helper lemmas -/

theorem generate_grid_levels_perm (center spacing : ℚ) (levels : ℕ) :
    (generate_grid_levels center spacing levels).Perm
      (gridBuys center spacing (levels / 2) ++ gridSells center spacing (levels / 2)) :=
  List.perm_insertionSort priceLE _

theorem length_generate_grid_levels (center spacing : ℚ) (levels : ℕ) :
    (generate_grid_levels center spacing levels).length = levels / 2 + levels / 2 := by
  have h := (generate_grid_levels_perm center spacing levels).length_eq
  simp [gridBuys, gridSells] at h
  omega

/-! ## C3 — volatility regime thresholds -/

/-- C3 counterexample: the claim says a volatility ratio in
`[1.5%, 2.5%)` is classified `low`; the code classifies `r = 2%`
(which satisfies `1.5% ≤ r < 2.5%`) as `very_low`, because
`classify_volatility_regime` uses `thresholds['low'] = 0.025` as the
inclusive LOWER bound of the `low` band. -/
theorem classify_volatility_regime_counterexample :
    (15 / 1000 : ℚ) ≤ 2 / 100 ∧ (2 / 100 : ℚ) < 25 / 1000 ∧
      classify_volatility_regime (2 / 100) = "very_low" ∧ "very_low" ≠ "low" := by
  refine ⟨by norm_num, by norm_num, ?_, by decide⟩
  rw [classify_volatility_regime]
  norm_num

/-- C3 (amended): `classify_volatility_regime` assigns the regime of the
band whose inclusive lower bound the ratio meets, with the bands
actually implemented: `very_low` for `r < 2.5%`, `low` for
`2.5% ≤ r < 4%`, `normal` for `4% ≤ r < 6%`, `high` for `6% ≤ r < 8%`,
and `very_high` for `r ≥ 8%`. -/
theorem classify_volatility_regime_bands (r : ℚ) :
    (r < 25 / 1000 → classify_volatility_regime r = "very_low") ∧
    (25 / 1000 ≤ r → r < 40 / 1000 → classify_volatility_regime r = "low") ∧
    (40 / 1000 ≤ r → r < 60 / 1000 → classify_volatility_regime r = "normal") ∧
    (60 / 1000 ≤ r → r < 80 / 1000 → classify_volatility_regime r = "high") ∧
    (80 / 1000 ≤ r → classify_volatility_regime r = "very_high") := by
  unfold classify_volatility_regime
  refine ⟨fun h => ?_, fun h1 h2 => ?_, fun h1 h2 => ?_, fun h1 h2 => ?_, fun h => ?_⟩ <;>
    · split_ifs <;> first | rfl | linarith

/-- Witness for C3's amended theorem: one concrete ratio in each band. -/
theorem classify_volatility_regime_bands_witness :
    classify_volatility_regime (1 / 100) = "very_low" ∧
    classify_volatility_regime (3 / 100) = "low" ∧
    classify_volatility_regime (5 / 100) = "normal" ∧
    classify_volatility_regime (7 / 100) = "high" ∧
    classify_volatility_regime (9 / 100) = "very_high" :=
  ⟨(classify_volatility_regime_bands (1 / 100)).1 (by norm_num),
   (classify_volatility_regime_bands (3 / 100)).2.1 (by norm_num) (by norm_num),
   (classify_volatility_regime_bands (5 / 100)).2.2.1 (by norm_num) (by norm_num),
   (classify_volatility_regime_bands (7 / 100)).2.2.2.1 (by norm_num) (by norm_num),
   (classify_volatility_regime_bands (9 / 100)).2.2.2.2 (by norm_num)⟩

/-! ## C8 — no parameter validation in grid generation -/

/-- C8 counterexample: the claim says `spacing_pct ≤ 0` makes grid
generation fail with an invalid-parameter error and produce no ladder.
Neither `GridGenerator.generate_grid_levels` nor
`GridStrategyController.generate_grid` contains any validation or error
path: with `center_price = 100`, `spacing_pct = -1/200 ≤ 0` and
`levels = 10`, a 10-entry ladder is produced. -/
theorem generate_grid_levels_no_validation_counterexample :
    (-1 / 200 : ℚ) ≤ 0 ∧
      (generate_grid_levels 100 (-1 / 200) 10).length = 10 := by
  refine ⟨by norm_num, ?_⟩
  rw [length_generate_grid_levels]

/-- C8 (amended): grid generation performs no validation of
`center_price` or `spacing_pct` at all — for every input, including
non-positive centers and spacings, it returns a ladder of
`2 * (level_count / 2)` levels and never an error. -/
theorem generate_grid_levels_total (center spacing : ℚ) (levels : ℕ) :
    (generate_grid_levels center spacing levels).length = 2 * (levels / 2) := by
  rw [length_generate_grid_levels]
  omega

/-! ## C4 — candidate evaluation is a pure predicate -/

/-- C4: a BUY level of the ladder is returned as a buy candidate iff
`current_price ≤ level.price` and its level number is not in
`bought_levels`; a SELL level is a sell candidate iff
`current_price ≥ level.price` and its `(level, price)` pair is not in
`sold_levels`; the call returns the execution state unchanged, so a
second evaluation at the same price with no intervening fill returns
exactly the same candidate lists. -/
theorem get_trading_opportunities_spec (st : ExecState) (grid : List GridLevel)
    (current_price : ℚ) (lvl : GridLevel) :
    (lvl ∈ (get_trading_opportunities st grid current_price).2.1 ↔
      lvl ∈ grid ∧ lvl.side = Side.BUY ∧ current_price ≤ lvl.price ∧
        lvl.level ∉ st.bought_levels) ∧
    (lvl ∈ (get_trading_opportunities st grid current_price).2.2 ↔
      lvl ∈ grid ∧ lvl.side = Side.SELL ∧ current_price ≥ lvl.price ∧
        (lvl.level, lvl.price) ∉ st.sold_levels) ∧
    (get_trading_opportunities st grid current_price).1 = st ∧
    get_trading_opportunities (get_trading_opportunities st grid current_price).1
        grid current_price =
      get_trading_opportunities st grid current_price := by
  refine ⟨?_, ?_, rfl, rfl⟩ <;>
    · simp [get_trading_opportunities, List.mem_filter, and_assoc]

/-! ## C9 — spot position never negative -/

/-- C9: starting from the empty `PositionManager`, after any sequence of
buy/sell requests with non-negative quantities the held position is
non-negative; moreover any sell whose quantity exceeds the held quantity
is rejected with `ValueError` and leaves the state unchanged. -/
theorem position_nonnegative (ops : List PMOp) (hq : ∀ op ∈ ops, 0 ≤ op.qty) :
    0 ≤ (pm_run pmInit ops).positionQty ∧
    (∀ (st : PMState) (q p : ℚ), st.positionQty < q →
      (pm_sell st q p).1 = st ∧
        (pm_sell st q p).2 = Except.error (PyError.valueError "Not enough position to sell.")) := by
  constructor
  · -- the invariant is preserved by every request with non-negative quantity
    have step : ∀ (st : PMState) (op : PMOp), 0 ≤ st.positionQty → 0 ≤ op.qty →
        0 ≤ (pm_apply st op).positionQty := by
      intro st op hst hop
      cases op with
      | buy q p =>
          simp only [pm_apply, pm_buy, PMOp.qty] at *
          cases h : st.current_position with
          | none => simpa [h, PMState.positionQty] using hop
          | some pos =>
              simp only [h, PMState.positionQty] at *
              exact add_nonneg hst hop
      | sell q p =>
          cases h : st.current_position with
          | none => simpa [pm_apply, pm_sell, h, PMState.positionQty] using hst
          | some pos =>
              have hpos : 0 ≤ pos.quantity := by
                simpa [PMState.positionQty, h] using hst
              have hle := le_total pos.quantity q
              by_cases h1 : pos.quantity < q
              · simpa [pm_apply, pm_sell, h, h1, PMState.positionQty] using hpos
              · by_cases h2 : pos.quantity - q = 0
                · simp [pm_apply, pm_sell, h, h1, h2, PMState.positionQty]
                · simp only [pm_apply, pm_sell, h, h1, if_false, h2, PMState.positionQty]
                  have := not_lt.mp h1
                  linarith
    -- fold the invariant over the sequence
    have main : ∀ (l : List PMOp) (st : PMState), 0 ≤ st.positionQty →
        (∀ op ∈ l, 0 ≤ op.qty) → 0 ≤ (pm_run st l).positionQty := by
      intro l
      induction l with
      | nil => intro st h _; simpa [pm_run] using h
      | cons a l ih =>
          intro st h hall
          have := step st a h (hall a (by simp))
          simpa [pm_run, List.foldl_cons] using
            ih (pm_apply st a) this (fun op hop => hall op (by simp [hop]))
    exact main ops pmInit (by simp [pmInit, PMState.positionQty]) hq
  · intro st q p hlt
    cases h : st.current_position with
    | none => simp [pm_sell, h]
    | some pos =>
        have : pos.quantity < q := by simpa [h, PMState.positionQty] using hlt
        simp [pm_sell, h, this]

/-- Witness for C9: buy 1 @ 100, an over-sell of 2 @ 110 (rejected),
then sell 1 @ 105 — the position remains non-negative throughout. -/
theorem position_nonnegative_witness :
    (∀ op ∈ [PMOp.buy 1 100, PMOp.sell 2 110, PMOp.sell 1 105], 0 ≤ op.qty) ∧
    0 ≤ (pm_run pmInit [PMOp.buy 1 100, PMOp.sell 2 110, PMOp.sell 1 105]).positionQty := by
  have hq : ∀ op ∈ [PMOp.buy 1 100, PMOp.sell 2 110, PMOp.sell 1 105], 0 ≤ op.qty := by
    intro op hop
    fin_cases hop <;> norm_num [PMOp.qty]
  exact ⟨hq, (position_nonnegative [PMOp.buy 1 100, PMOp.sell 2 110, PMOp.sell 1 105] hq).1⟩

/-! ## C10 — buys merge into a weighted-average position -/

/-- C10: buying `q2` at `p2` while holding `q1` bought at `p1` merges
into a single position of quantity `q1 + q2` with the weighted-average
buy price `(p1*q1 + p2*q2) / (q1 + q2)`, and a subsequent sell of
`q ≤ q1 + q2` at `sp` computes the realized P&L
`(sp - average) * q` against that aggregate average. -/
theorem position_averaging (q1 p1 q2 p2 q sp : ℚ)
    (h1 : 0 < q1) (h2 : 0 < q2) (hq : q ≤ q1 + q2) :
    (pm_buy (pm_buy pmInit q1 p1) q2 p2).current_position =
      some { buy_price := (p1 * q1 + p2 * q2) / (q1 + q2), quantity := q1 + q2 } ∧
    (pm_sell (pm_buy (pm_buy pmInit q1 p1) q2 p2) q sp).2 =
      Except.ok ((sp - (p1 * q1 + p2 * q2) / (q1 + q2)) * q) := by
  have hcur : (pm_buy (pm_buy pmInit q1 p1) q2 p2).current_position =
      some { buy_price := (p1 * q1 + p2 * q2) / (q1 + q2), quantity := q1 + q2 } := by
    simp [pm_buy, pmInit]
  refine ⟨hcur, ?_⟩
  have hnlt : ¬ (q1 + q2 < q) := not_lt.mpr hq
  rw [pm_sell, hcur]
  simp only [hnlt, if_false]
  split_ifs <;> rfl

/-- Witness for C10: merge 1 @ 100 with 3 @ 200 (average 175), then
sell 2 @ 180 for a recorded P&L of `(180 - 175) * 2 = 10`. -/
theorem position_averaging_witness :
    (0 : ℚ) < 1 ∧ (0 : ℚ) < 3 ∧ (2 : ℚ) ≤ 1 + 3 ∧
    (pm_buy (pm_buy pmInit 1 100) 3 200).current_position =
      some { buy_price := (100 * 1 + 200 * 3) / (1 + 3), quantity := 1 + 3 } ∧
    (pm_sell (pm_buy (pm_buy pmInit 1 100) 3 200) 2 180).2 =
      Except.ok ((180 - (100 * 1 + 200 * 3) / (1 + 3)) * 2) := by
  have h := position_averaging 1 100 3 200 2 180 (by norm_num) (by norm_num) (by norm_num)
  exact ⟨by norm_num, by norm_num, by norm_num, h.1, h.2⟩

/-! ## Risk manager helper lemmas -/

theorem trigger_emergency_stop_flag (st : RiskState) :
    (trigger_emergency_stop st).1.emergency_stop_triggered = true := by
  unfold trigger_emergency_stop
  split_ifs with h
  · exact h
  · rfl

theorem trigger_emergency_stop_fields (st : RiskState) :
    (trigger_emergency_stop st).1.consecutive_losses = st.consecutive_losses ∧
    (trigger_emergency_stop st).1.daily_pnl = st.daily_pnl ∧
    (trigger_emergency_stop st).1.current_drawdown = st.current_drawdown := by
  unfold trigger_emergency_stop
  split_ifs <;> exact ⟨rfl, rfl, rfl⟩

theorem check_risk_limits_preserves (cfg : RiskConfig) (st : RiskState) :
    (check_risk_limits cfg st).1.consecutive_losses = st.consecutive_losses ∧
    (check_risk_limits cfg st).1.daily_pnl = st.daily_pnl ∧
    (check_risk_limits cfg st).1.current_drawdown = st.current_drawdown := by
  unfold check_risk_limits
  split_ifs <;>
    simp [trigger_emergency_stop_fields] <;>
    split_ifs <;>
    simp [trigger_emergency_stop_fields]

theorem check_risk_limits_flag_mono (cfg : RiskConfig) (st : RiskState)
    (h : st.emergency_stop_triggered = true) :
    (check_risk_limits cfg st).1.emergency_stop_triggered = true := by
  unfold check_risk_limits
  split_ifs <;>
    first
      | exact h
      | exact trigger_emergency_stop_flag _
      | (simp only []
         split_ifs <;>
           first
             | exact trigger_emergency_stop_flag _
             | simpa [trigger_emergency_stop] using h)

theorem apply_trade_stats_flag (st : RiskState) (pnl : ℚ) :
    (apply_trade_stats st pnl).emergency_stop_triggered = st.emergency_stop_triggered := by
  unfold apply_trade_stats
  split_ifs <;> rfl

theorem record_trade_result_flag_mono (cfg : RiskConfig) (st : RiskState) (pnl : ℚ)
    (h : st.emergency_stop_triggered = true) :
    (record_trade_result cfg st pnl).1.emergency_stop_triggered = true := by
  unfold record_trade_result
  exact check_risk_limits_flag_mono cfg _ (by rw [apply_trade_stats_flag]; exact h)

theorem record_trades_flag_mono (cfg : RiskConfig) (pnls : List ℚ) :
    ∀ st : RiskState, st.emergency_stop_triggered = true →
      (record_trades cfg st pnls).emergency_stop_triggered = true := by
  induction pnls with
  | nil => intro st h; simpa [record_trades] using h
  | cons a l ih =>
      intro st h
      have h1 := record_trade_result_flag_mono cfg st a h
      simpa [record_trades, List.foldl_cons] using ih _ h1

theorem check_trade_allowed_of_flag (cfg : RiskConfig) (st : RiskState)
    (h : st.emergency_stop_triggered = true) :
    (check_trade_allowed cfg st).1 = false := by
  unfold check_trade_allowed
  simp [h]

theorem check_risk_limits_sets_flag (cfg : RiskConfig) (st : RiskState)
    (henabled : cfg.emergency_stop_enabled = true)
    (hbreach : (st.daily_pnl < 0 ∧ |st.daily_pnl| ≥ daily_loss_limit cfg) ∨
      (st.current_drawdown > 0 ∧ st.current_drawdown ≥ max_drawdown_limit cfg)) :
    (check_risk_limits cfg st).1.emergency_stop_triggered = true := by
  by_cases hflag : st.emergency_stop_triggered = true
  · exact check_risk_limits_flag_mono cfg st hflag
  · have hflag2 : st.emergency_stop_triggered = false := by
      revert hflag; cases st.emergency_stop_triggered <;> simp
    unfold check_risk_limits
    simp only [henabled]
    rcases hbreach with hdaily | hdd
    · simp [hdaily, trigger_emergency_stop, hflag2]
    · by_cases hdaily : st.daily_pnl < 0 ∧ |st.daily_pnl| ≥ daily_loss_limit cfg
      · simp [hdaily, trigger_emergency_stop, hflag2]
      · simp [hdaily, hdd, trigger_emergency_stop, hflag2]

/-! ## C5 — emergency stop is sticky -/

/-- C5: when a `record_trade_result` call leaves the recorded daily P&L
at or past the daily-loss limit, or the accumulated drawdown at or past
the max-drawdown limit (with the emergency stop enabled, its default),
`emergency_stop_triggered` becomes true, stays true across every further
`record_trade_result` call, and every subsequent `check_trade_allowed`
returns false — even if the later recorded P&L makes the counters
recover. -/
theorem emergency_stop_sticky (cfg : RiskConfig) (st : RiskState) (pnl : ℚ)
    (henabled : cfg.emergency_stop_enabled = true)
    (hbreach :
      ((apply_trade_stats st pnl).daily_pnl < 0 ∧
        |(apply_trade_stats st pnl).daily_pnl| ≥ daily_loss_limit cfg) ∨
      ((apply_trade_stats st pnl).current_drawdown > 0 ∧
        (apply_trade_stats st pnl).current_drawdown ≥ max_drawdown_limit cfg)) :
    ∀ future : List ℚ,
      (record_trades cfg (record_trade_result cfg st pnl).1 future).emergency_stop_triggered
        = true ∧
      (check_trade_allowed cfg
        (record_trades cfg (record_trade_result cfg st pnl).1 future)).1 = false := by
  intro future
  have h1 : (record_trade_result cfg st pnl).1.emergency_stop_triggered = true := by
    unfold record_trade_result
    exact check_risk_limits_sets_flag cfg _ henabled hbreach
  have h2 := record_trades_flag_mono cfg future _ h1
  exact ⟨h2, check_trade_allowed_of_flag cfg _ h2⟩

/-- Witness for C5: capital 10000, daily-loss limit 10% (= 1000); a
single −1000 trade breaches the limit, and even after a +2000 recovery
trade the stop stays triggered and trading stays blocked. -/
theorem emergency_stop_sticky_witness :
    let cfg : RiskConfig :=
      { total_capital := 10000, max_drawdown_pct := 15, daily_loss_limit_pct := 10,
        max_consecutive_losses := 5, emergency_stop_enabled := true }
    cfg.emergency_stop_enabled = true ∧
    ((apply_trade_stats riskInit (-1000)).daily_pnl < 0 ∧
      |(apply_trade_stats riskInit (-1000)).daily_pnl| ≥ daily_loss_limit cfg) ∧
    ((record_trades cfg (record_trade_result cfg riskInit (-1000)).1 [2000]).emergency_stop_triggered
        = true ∧
      (check_trade_allowed cfg
        (record_trades cfg (record_trade_result cfg riskInit (-1000)).1 [2000])).1 = false) := by
  intro cfg
  have hb : ((apply_trade_stats riskInit (-1000)).daily_pnl < 0 ∧
      |(apply_trade_stats riskInit (-1000)).daily_pnl| ≥ daily_loss_limit cfg) := by
    norm_num [apply_trade_stats, riskInit, daily_loss_limit]
  exact ⟨rfl, hb, emergency_stop_sticky cfg riskInit (-1000) rfl (Or.inl hb) [2000]⟩

/-! ## C6 — consecutive-loss gate and its reset -/

/-- C6: after at least `max_consecutive_losses` consecutive losing
trade results (the limit being positive, as configured),
`check_trade_allowed` returns false; one further non-losing trade resets
`consecutive_losses` to 0, and — provided no emergency stop was
triggered and today's loss is below the 80% daily-limit warning
threshold — `check_trade_allowed` returns true again. -/
theorem risk_gate_consecutive_losses (cfg : RiskConfig) (st : RiskState)
    (losses : List ℚ) (w : ℚ)
    (hmax : 0 < cfg.max_consecutive_losses)
    (hloss : ∀ p ∈ losses, p < 0)
    (hn : cfg.max_consecutive_losses ≤ losses.length)
    (hw : 0 ≤ w) :
    (check_trade_allowed cfg (record_trades cfg st losses)).1 = false ∧
    (record_trade_result cfg (record_trades cfg st losses) w).1.consecutive_losses = 0 ∧
    ((record_trade_result cfg (record_trades cfg st losses) w).1.emergency_stop_triggered = false →
      ¬((record_trade_result cfg (record_trades cfg st losses) w).1.daily_pnl < 0 ∧
        |(record_trade_result cfg (record_trades cfg st losses) w).1.daily_pnl| ≥
          daily_loss_limit cfg * (8 / 10)) →
      (check_trade_allowed cfg (record_trade_result cfg (record_trades cfg st losses) w).1).1
        = true) := by
  have hloss_step : ∀ (s : RiskState) (p : ℚ), p < 0 →
      (record_trade_result cfg s p).1.consecutive_losses = s.consecutive_losses + 1 := by
    intro s p hp
    unfold record_trade_result
    rw [(check_risk_limits_preserves cfg _).1]
    unfold apply_trade_stats
    simp [hp]
  have hcount : ∀ (l : List ℚ) (s : RiskState), (∀ p ∈ l, p < 0) →
      (record_trades cfg s l).consecutive_losses = s.consecutive_losses + l.length := by
    intro l
    induction l with
    | nil => intro s _; simp [record_trades]
    | cons a t ih =>
        intro s hall
        have ha := hloss_step s a (hall a (by simp))
        have := ih (record_trade_result cfg s a).1 (fun p hp => hall p (by simp [hp]))
        simp only [record_trades, List.foldl_cons] at *
        rw [this, ha, List.length_cons]
        omega
  have hge : cfg.max_consecutive_losses ≤ (record_trades cfg st losses).consecutive_losses := by
    rw [hcount losses st hloss]
    omega
  refine ⟨?_, ?_, ?_⟩
  · -- blocked after the losing streak
    unfold check_trade_allowed
    split_ifs <;> rfl
  · -- the winning trade resets the counter
    unfold record_trade_result
    rw [(check_risk_limits_preserves cfg _).1]
    unfold apply_trade_stats
    simp [not_lt.mpr hw]
  · -- and trading is allowed again absent other breaches
    intro hflag hwarn
    have hzero :
        (record_trade_result cfg (record_trades cfg st losses) w).1.consecutive_losses = 0 := by
      unfold record_trade_result
      rw [(check_risk_limits_preserves cfg _).1]
      unfold apply_trade_stats
      simp [not_lt.mpr hw]
    unfold check_trade_allowed
    split_ifs with hf hc
    · exact absurd hf (by simp [hflag])
    · rw [hzero] at hc; omega
    · rfl

/-- Witness for C6: limit of 3 consecutive losses, three −1 losses block
trading, one +5 win resets the counter and unblocks it. -/
theorem risk_gate_consecutive_losses_witness :
    let cfg : RiskConfig :=
      { total_capital := 10000, max_drawdown_pct := 15, daily_loss_limit_pct := 10,
        max_consecutive_losses := 3, emergency_stop_enabled := true }
    (0 < cfg.max_consecutive_losses) ∧
    (∀ p ∈ [(-1 : ℚ), -1, -1], p < 0) ∧
    (cfg.max_consecutive_losses ≤ [(-1 : ℚ), -1, -1].length) ∧
    ((0 : ℚ) ≤ 5) ∧
    (check_trade_allowed cfg (record_trades cfg riskInit [-1, -1, -1])).1 = false ∧
    (record_trade_result cfg (record_trades cfg riskInit [-1, -1, -1]) 5).1.consecutive_losses
      = 0 := by
  intro cfg
  have hloss : ∀ p ∈ [(-1 : ℚ), -1, -1], p < 0 := by
    intro p hp
    fin_cases hp <;> norm_num
  have h := risk_gate_consecutive_losses cfg riskInit [-1, -1, -1] 5
    (by norm_num) hloss (by simp) (by norm_num)
  exact ⟨by norm_num, hloss, by simp, by norm_num, h.1, h.2.1⟩

/-! ## C2 — shape of the generated ladder -/

/-- C2: for every positive center, positive spacing and even positive
level count, the generated ladder has exactly `level_count` entries and
is, as a multiset, the `level_count/2` BUY levels at
`center*(1 - spacing*i)` with index `-i` together with the
`level_count/2` SELL levels at `center*(1 + spacing*i)` with index `+i`
(`i = 1..level_count/2`); every BUY level is strictly below center and
every SELL level strictly above; the result is sorted ascending by
price and no two levels share a price. -/
theorem generate_grid_levels_spec (c s : ℚ) (n : ℕ) (hc : 0 < c) (hs : 0 < s)
    (he : n % 2 = 0) (hp : 0 < n) :
    (generate_grid_levels c s n).length = n ∧
    (generate_grid_levels c s n).Perm (gridBuys c s (n / 2) ++ gridSells c s (n / 2)) ∧
    ((generate_grid_levels c s n).countP (fun l => l.side == Side.BUY)) = n / 2 ∧
    ((generate_grid_levels c s n).countP (fun l => l.side == Side.SELL)) = n / 2 ∧
    (∀ l ∈ generate_grid_levels c s n,
      (l.side = Side.BUY → l.price < c ∧ ∃ i : ℕ, 1 ≤ i ∧ i ≤ n / 2 ∧
          l.level = -(i : ℤ) ∧ l.price = c * (1 - s * i)) ∧
      (l.side = Side.SELL → c < l.price ∧ ∃ i : ℕ, 1 ≤ i ∧ i ≤ n / 2 ∧
          l.level = (i : ℤ) ∧ l.price = c * (1 + s * i))) ∧
    List.Sorted priceLE (generate_grid_levels c s n) ∧
    ((generate_grid_levels c s n).map GridLevel.price).Nodup := by
  have hperm := generate_grid_levels_perm c s n
  have hlen : (generate_grid_levels c s n).length = n := by
    rw [length_generate_grid_levels]; omega
  have hbuy_price : ∀ j : ℕ, c * (1 - s * ((j : ℚ) + 1)) < c := by
    intro j
    have hj : (0 : ℚ) < (j : ℚ) + 1 := by positivity
    nlinarith [mul_pos hc (mul_pos hs hj)]
  have hsell_price : ∀ j : ℕ, c < c * (1 + s * ((j : ℚ) + 1)) := by
    intro j
    have hj : (0 : ℚ) < (j : ℚ) + 1 := by positivity
    nlinarith [mul_pos hc (mul_pos hs hj)]
  refine ⟨hlen, hperm, ?_, ?_, ?_, ?_, ?_⟩
  · -- n/2 BUY levels
    rw [hperm.countP_eq, List.countP_append]
    have h1 : (gridBuys c s (n / 2)).countP (fun l => l.side == Side.BUY)
        = (gridBuys c s (n / 2)).length := by
      rw [List.countP_eq_length]
      intro a ha
      simp only [gridBuys, List.mem_map] at ha
      obtain ⟨j, _, rfl⟩ := ha
      rfl
    have h2 : (gridSells c s (n / 2)).countP (fun l => l.side == Side.BUY) = 0 := by
      rw [List.countP_eq_zero]
      intro a ha
      simp only [gridSells, List.mem_map] at ha
      obtain ⟨j, _, rfl⟩ := ha
      simp
    rw [h1, h2]
    simp [gridBuys]
  · -- n/2 SELL levels
    rw [hperm.countP_eq, List.countP_append]
    have h1 : (gridBuys c s (n / 2)).countP (fun l => l.side == Side.SELL) = 0 := by
      rw [List.countP_eq_zero]
      intro a ha
      simp only [gridBuys, List.mem_map] at ha
      obtain ⟨j, _, rfl⟩ := ha
      simp
    have h2 : (gridSells c s (n / 2)).countP (fun l => l.side == Side.SELL)
        = (gridSells c s (n / 2)).length := by
      rw [List.countP_eq_length]
      intro a ha
      simp only [gridSells, List.mem_map] at ha
      obtain ⟨j, _, rfl⟩ := ha
      rfl
    rw [h1, h2]
    simp [gridSells]
  · -- membership characterization and strict side bounds
    intro l hl
    have hl2 := hperm.subset hl
    rw [List.mem_append] at hl2
    rcases hl2 with hb | hsl
    · simp only [gridBuys, List.mem_map, List.mem_range] at hb
      obtain ⟨j, hj, rfl⟩ := hb
      refine ⟨fun _ => ⟨hbuy_price j, j + 1, by omega, by omega, by push_cast; ring, by push_cast; ring_nf⟩,
              fun hside => ?_⟩
      exact absurd hside (by simp)
    · simp only [gridSells, List.mem_map, List.mem_range] at hsl
      obtain ⟨j, hj, rfl⟩ := hsl
      refine ⟨fun hside => absurd hside (by simp),
              fun _ => ⟨hsell_price j, j + 1, by omega, by omega, by push_cast; ring, by push_cast; ring_nf⟩⟩
  · -- sorted ascending by price
    rw [generate_grid_levels]
    exact List.sorted_insertionSort priceLE _
  · -- no two levels share a price
    have hmp : ((generate_grid_levels c s n).map GridLevel.price).Perm
        ((gridBuys c s (n / 2) ++ gridSells c s (n / 2)).map GridLevel.price) :=
      hperm.map _
    rw [hmp.nodup_iff, List.map_append, List.nodup_append]
    refine ⟨?_, ?_, ?_⟩
    · -- buy prices are strictly decreasing in i, hence distinct
      rw [gridBuys, List.map_map]
      refine List.Pairwise.map _ ?_ (List.pairwise_lt_range (n / 2))
      intro a b hab
      have hcast : (a : ℚ) + 1 < (b : ℚ) + 1 := by exact_mod_cast Nat.add_lt_add_right hab 1
      have : c * (1 - s * ((b : ℚ) + 1)) < c * (1 - s * ((a : ℚ) + 1)) := by
        nlinarith [mul_pos hc (mul_pos hs (sub_pos.mpr hcast))]
      simp only [Function.comp]
      exact (ne_of_gt this)
    · -- sell prices are strictly increasing in i, hence distinct
      rw [gridSells, List.map_map]
      refine List.Pairwise.map _ ?_ (List.pairwise_lt_range (n / 2))
      intro a b hab
      have hcast : (a : ℚ) + 1 < (b : ℚ) + 1 := by exact_mod_cast Nat.add_lt_add_right hab 1
      have : c * (1 + s * ((a : ℚ) + 1)) < c * (1 + s * ((b : ℚ) + 1)) := by
        nlinarith [mul_pos hc (mul_pos hs (sub_pos.mpr hcast))]
      simp only [Function.comp]
      exact (ne_of_lt this)
    · -- a buy price (below center) never equals a sell price (above center)
      intro x hx hy
      simp only [gridBuys, gridSells, List.map_map, List.mem_map, List.mem_range,
        Function.comp] at hx hy
      obtain ⟨a, _, rfl⟩ := hx
      obtain ⟨b, _, heq⟩ := hy
      have h1 := hbuy_price a
      have h2 := hsell_price b
      rw [heq] at h2
      linarith

/-- Witness for C2: the scenario ladder `center=100000, spacing=0.5%,
levels=10`. -/
theorem generate_grid_levels_spec_witness :
    (0 : ℚ) < 100000 ∧ (0 : ℚ) < 5 / 1000 ∧ 10 % 2 = 0 ∧ 0 < 10 ∧
    (generate_grid_levels 100000 (5 / 1000) 10).length = 10 ∧
    List.Sorted priceLE (generate_grid_levels 100000 (5 / 1000) 10) ∧
    ((generate_grid_levels 100000 (5 / 1000) 10).map GridLevel.price).Nodup := by
  have h := generate_grid_levels_spec 100000 (5 / 1000) 10
    (by norm_num) (by norm_num) (by decide) (by decide)
  exact ⟨by norm_num, by norm_num, by decide, by decide, h.1, h.2.2.2.2.2.1, h.2.2.2.2.2.2⟩

/-! ## C7 — `record_order_fill` crashes before any cycle can complete -/

/-- C7 (code bug): `CycleTracker.__init__` never initialises
`self.total_fees`, yet `record_order_fill` executes
`self.total_fees += fee_amount` whenever the (default) fee asset is
`'USDT'`.  Evaluating the embedded tracker at the failing input — a
fresh tracker, `start_new_cycle`, then a BUY fill and a SELL fill —
shows each `record_order_fill` call raising
`AttributeError('total_fees')` after appending its fill but before the
completion check: the active cycle ends up holding both a BUY and a
SELL fill, yet no cycle ever completes, no profit is computed, and
nothing reaches the history. -/
theorem cycle_tracker_record_fill_attribute_error :
    let cfg : CycleConfig :=
      { maker_fee_pct := 1 / 10, target_profit_per_cycle := 35 / 10000,
        daily_target_profit := 4375 / 100000 }
    let r1 := record_order_fill cfg (start_new_cycle cycleTrackerInit) "BUY" 99500 1 (1 / 10) "USDT"
    let r2 := record_order_fill cfg r1.1 "SELL" 100500 1 (1 / 10) "USDT"
    r1.2 = some (PyError.attributeError "total_fees") ∧
    r2.2 = some (PyError.attributeError "total_fees") ∧
    r2.1.cycles = [] ∧
    r2.1.winning_cycles = 0 ∧
    r2.1.losing_cycles = 0 ∧
    r2.1.current_cycle = some
      { fills := [{ side := "BUY", price := 99500, quantity := 1, fee := 1 / 10 },
                  { side := "SELL", price := 100500, quantity := 1, fee := 1 / 10 }],
        orders_filled := 2, fees_paid := 1 / 5, gross_profit := 0,
        net_profit := 0, profit_pct := 0, status := "active" } := by
  refine ⟨rfl, rfl, rfl, rfl, rfl, ?_⟩
  norm_num [record_order_fill, start_new_cycle, cycleTrackerInit, freshCycle]

/-! ## C1 — the matching sell never closes a cycle and never frees L -/

/-- C1 (code bug): with the ladder `BUY@99500 (level -1)`,
`SELL@100500 (level +1)`, a BUY fill at 99500 followed by a tick at
100500 (the bought level's sell-pairing target).  The claim says this
sell closes exactly one cycle with
`net_profit = (sell_price - buy_price)*qty - fees` and removes the
level from `bought_levels`.  The embedded `execute_sell_orders` instead:
executes the sell (position goes to 0 and `(1, 100500)` enters
`sold_levels`), never removes `-1` from `bought_levels`, records no P&L
with the risk manager (the position summary is read AFTER the sell and
the position is gone), and the cycle-completion call
`cycle_tracker.check_cycle_completion(...)` raises `AttributeError`
(the class defines no such method), which the per-level `except`
swallows — so no cycle is closed and `executed_orders` stays empty. -/
theorem round_trip_never_closes_cycle :
    let grid : List GridLevel :=
      [{ price := 99500, side := Side.BUY, level := -1 },
       { price := 100500, side := Side.SELL, level := 1 }]
    let stB := execute_buy_orders execInit grid 99500 1
    let r := execute_sell_orders stB grid 100500 1 true
    stB.bought_levels = {-1} ∧
    stB.pm.current_position = some { buy_price := 99500, quantity := 1 } ∧
    r.1.sold_levels = {((1 : ℤ), (100500 : ℚ))} ∧
    r.1.bought_levels = {-1} ∧
    r.2.1 = [] ∧
    r.2.2 = [PyError.attributeError "check_cycle_completion"] ∧
    r.1.pm.positionQty = 0 := by
  have hccc : callCheckCycleCompletion =
      Except.error (PyError.attributeError "check_cycle_completion") := rfl
  have hbuy : execute_buy_orders execInit
      [{ price := 99500, side := Side.BUY, level := -1 },
       { price := 100500, side := Side.SELL, level := 1 }] 99500 1 =
      { bought_levels := {-1}, sold_levels := ∅,
        pm := { current_position := some { buy_price := 99500, quantity := 1 },
                closed_positions := [] } } := by
    simp +decide [execute_buy_orders, execute_buy_step, execInit, pmInit, pm_buy]
  have hsell : pm_sell
      { current_position := some { buy_price := 99500, quantity := 1 }, closed_positions := [] }
      1 100500 =
      ({ current_position := none,
         closed_positions := [{ buy_price := 99500, quantity := 0 }] },
       Except.ok 1000) := by
    norm_num [pm_sell]
  have hqty : PMState.positionQty
      { current_position := some { buy_price := 99500, quantity := 1 }, closed_positions := [] }
      = 1 := rfl
  refine ⟨by rw [hbuy], by rw [hbuy], ?_, ?_, ?_, ?_, ?_⟩ <;>
    · rw [hbuy]
      simp +decide [execute_sell_orders, execute_sell_step, hsell, hqty, hccc,
        PMState.positionQty]
